import Mathlib

/-
Verification of the sms-procurement-manager ingestion pipeline.

Shallow embedding of the worker's core modules:
  * worker/app/parsers/email_ingest.py : match_template, map_row, fetch_messages retry
  * worker/app/cli.py                  : upsert_offer, ingest_once, ensure_schema
  * worker/app/models/models.py        : the data model rows the worker reads and writes

Strings are Lean Strings; timestamps are Nat ticks; prices are Rat (the source
compares them with Python ==, which on the values the mapper produces is exact
equality); nullable SQL columns are Option; a SQLAlchemy session is a pure
Store record threaded through each function; autoincrement primary keys are
modelled by a nextId counter on the Store.
-/

namespace SMSProc

/-- Lower-case a string character by character (Python str.lower on the
ASCII range used by the matcher). -/
def lowerStr (s : String) : String := String.mk (s.data.map Char.toLower)

/-- Upper-case a string character by character (Python str.upper on the
ASCII range used by the mapper and upsert engine). -/
def upperStr (s : String) : String := String.mk (s.data.map Char.toUpper)

/-- Check that the first list is an initial segment of the second. -/
def matchesAt : List Char → List Char → Bool
  | [], _ => true
  | _ :: _, [] => false
  | a :: as, b :: bs => a == b && matchesAt as bs

/-- Contiguous-substring test: Python's `needle in hay` on strings. -/
def containsSub (needle : List Char) : List Char → Bool
  | [] => matchesAt needle []
  | c :: cs => matchesAt needle (c :: cs) || containsSub needle cs

/-- Python `needle in hay` for Lean strings. -/
def strIn (needle hay : String) : Bool := containsSub needle.data hay.data

/-- Message header fields consulted by the matcher (email_ingest.py:
msg.get of from/to/cc/subject, absent headers read as the empty string). -/
structure Message where
  fromH : String
  toH : String
  ccH : String
  subject : String
deriving DecidableEq

/-- Parsed template condition set (the JSON object stored in
ParsingTemplate.conditions). A key absent from the JSON object is `none`;
`fromC`, `toC`, `ccC` stand for the JSON keys "from", "to", "cc". -/
structure Conditions where
  fromC : Option (List String) := none
  toC : Option (List String) := none
  ccC : Option (List String) := none
  subjectKeywords : Option (List String) := none
  filenameKeywords : Option (List String) := none
deriving DecidableEq

/-- Embeds `_hdr_contains` (email_ingest.py lines 19-22): case-insensitive
substring match of any listed value against the raw header. -/
def hdrContains (raw : String) (values : List String) : Bool :=
  values.any (fun v => strIn (lowerStr v) (lowerStr raw))

/-- Embeds `match_template` (email_ingest.py lines 24-34): each condition
category present in the template must pass; absent categories are not
enforced; the source's early returns are the conjunction below. -/
def match_template (msg : Message) (fnames : List String) (cond : Conditions) : Bool :=
  (match cond.fromC with
   | some vs => hdrContains msg.fromH vs
   | none => true) &&
  (match cond.toC with
   | some vs => hdrContains msg.toH vs
   | none => true) &&
  (match cond.ccC with
   | some vs => hdrContains msg.ccH vs
   | none => true) &&
  (match cond.subjectKeywords with
   | some ks => ks.any (fun k => strIn (lowerStr k) (lowerStr msg.subject))
   | none => true) &&
  (match cond.filenameKeywords with
   | some ks => (fnames.map lowerStr).any (fun f => ks.any (fun k => strIn (lowerStr k) f))
   | none => true)

/-- The five condition categories of the matcher. -/
inductive Category where
  | fromCat
  | toCat
  | ccCat
  | subjCat
  | fileCat
deriving DecidableEq

/-- Read one category's value list out of a condition set. -/
def getCat (cond : Conditions) : Category → Option (List String)
  | .fromCat => cond.fromC
  | .toCat => cond.toC
  | .ccCat => cond.ccC
  | .subjCat => cond.subjectKeywords
  | .fileCat => cond.filenameKeywords

/-- Replace one category's entry in a condition set. -/
def setCat (cond : Conditions) : Category → Option (List String) → Conditions
  | .fromCat, v => { cond with fromC := v }
  | .toCat, v => { cond with toC := v }
  | .ccCat, v => { cond with ccC := v }
  | .subjCat, v => { cond with subjectKeywords := v }
  | .fileCat, v => { cond with filenameKeywords := v }

/-- Whether the message satisfies one category's check with the given
value list, exactly as match_template tests that category. -/
def satisfiesCat (msg : Message) (fnames : List String) : Category → List String → Bool
  | .fromCat, vs => hdrContains msg.fromH vs
  | .toCat, vs => hdrContains msg.toH vs
  | .ccCat, vs => hdrContains msg.ccH vs
  | .subjCat, ks => ks.any (fun k => strIn (lowerStr k) (lowerStr msg.subject))
  | .fileCat, ks => (fnames.map lowerStr).any (fun f => ks.any (fun k => strIn (lowerStr k) f))

/-- The empty condition set: no category enforced. -/
def emptyConditions : Conditions := {}

lemma match_template_eq_all (msg : Message) (fnames : List String) (cond : Conditions) :
    match_template msg fnames cond =
      ((match cond.fromC with
        | some vs => satisfiesCat msg fnames .fromCat vs
        | none => true) &&
       (match cond.toC with
        | some vs => satisfiesCat msg fnames .toCat vs
        | none => true) &&
       (match cond.ccC with
        | some vs => satisfiesCat msg fnames .ccCat vs
        | none => true) &&
       (match cond.subjectKeywords with
        | some vs => satisfiesCat msg fnames .subjCat vs
        | none => true) &&
       (match cond.filenameKeywords with
        | some vs => satisfiesCat msg fnames .fileCat vs
        | none => true)) := rfl

/-- Characterisation: the matcher accepts exactly when every category that
is present in the condition set is satisfied. -/
lemma match_template_iff (msg : Message) (fnames : List String) (cond : Conditions) :
    match_template msg fnames cond = true ↔
      ∀ c vs, getCat cond c = some vs → satisfiesCat msg fnames c vs = true := by
  constructor
  · intro h c vs hget
    rw [match_template_eq_all] at h
    simp only [Bool.and_eq_true] at h
    cases c <;> simp [getCat] at hget <;> simp_all
  · intro h
    rw [match_template_eq_all]
    simp only [Bool.and_eq_true]
    refine ⟨⟨⟨⟨?_, ?_⟩, ?_⟩, ?_⟩, ?_⟩
    · cases hx : cond.fromC with
      | none => rfl
      | some vs => exact h .fromCat vs (by simpa [getCat] using hx)
    · cases hx : cond.toC with
      | none => rfl
      | some vs => exact h .toCat vs (by simpa [getCat] using hx)
    · cases hx : cond.ccC with
      | none => rfl
      | some vs => exact h .ccCat vs (by simpa [getCat] using hx)
    · cases hx : cond.subjectKeywords with
      | none => rfl
      | some vs => exact h .subjCat vs (by simpa [getCat] using hx)
    · cases hx : cond.filenameKeywords with
      | none => rfl
      | some vs => exact h .fileCat vs (by simpa [getCat] using hx)

lemma getCat_setCat_self (cond : Conditions) (c : Category) (v : Option (List String)) :
    getCat (setCat cond c v) c = v := by
  cases c <;> rfl

lemma getCat_setCat_other (cond : Conditions) (c d : Category) (v : Option (List String))
    (h : d ≠ c) : getCat (setCat cond c v) d = getCat cond d := by
  cases c <;> cases d <;> first | rfl | exact absurd rfl h

/-- C5: template matching is monotonic in condition categories. Adding a
category (absent before) whose check the message fails turns a match into a
no-match; removing any category never turns a match into a no-match; and a
template with an empty condition set matches every message. -/
theorem C5_match_template_monotonic (msg : Message) (fnames : List String)
    (cond : Conditions) (c : Category) (vs : List String) :
    (match_template msg fnames cond = true → getCat cond c = none →
      satisfiesCat msg fnames c vs = false →
      match_template msg fnames (setCat cond c (some vs)) = false)
    ∧ (match_template msg fnames cond = true →
      match_template msg fnames (setCat cond c none) = true)
    ∧ match_template msg fnames emptyConditions = true := by
  refine ⟨?_, ?_, ?_⟩
  · intro _ _ hfail
    cases hnew : match_template msg fnames (setCat cond c (some vs)) with
    | false => rfl
    | true =>
      have := (match_template_iff msg fnames (setCat cond c (some vs))).1 hnew c vs
        (getCat_setCat_self cond c (some vs))
      rw [hfail] at this
      exact absurd this (by simp)
  · intro hmatch
    refine (match_template_iff msg fnames (setCat cond c none)).2 ?_
    intro d vsd hd
    by_cases hdc : d = c
    · subst hdc
      rw [getCat_setCat_self] at hd
      exact absurd hd (by simp)
    · rw [getCat_setCat_other cond c d none hdc] at hd
      exact (match_template_iff msg fnames cond).1 hmatch d vsd hd
  · rfl

/-- Concrete instance of C5: a template matching on sender and subject
keyword matches the sample message; adding a filename-keyword condition the
attachments fail makes it a no-match; removing the sender condition keeps
the match; the empty template matches. -/
theorem C5_match_template_monotonic_witness :
    match_template ⟨"offers@acme.com", "buy@me.com", "", "New price list"⟩ ["list.csv"]
      (setCat { fromC := some ["offers@acme.com"],
                subjectKeywords := some ["price"] } .fileCat (some ["xlsx"])) = false
    ∧ match_template ⟨"offers@acme.com", "buy@me.com", "", "New price list"⟩ ["list.csv"]
      (setCat { fromC := some ["offers@acme.com"],
                subjectKeywords := some ["price"] } .fromCat none) = true := by
  constructor
  · exact (C5_match_template_monotonic ⟨"offers@acme.com", "buy@me.com", "", "New price list"⟩
      ["list.csv"] { fromC := some ["offers@acme.com"], subjectKeywords := some ["price"] }
      .fileCat ["xlsx"]).1 (by decide) (by decide) (by decide)
  · exact ((C5_match_template_monotonic ⟨"offers@acme.com", "buy@me.com", "", "New price list"⟩
      ["list.csv"] { fromC := some ["offers@acme.com"], subjectKeywords := some ["price"] }
      .fromCat []).2).1 (by decide)

/-- One parsed row after the tabular parser: ordered (column, value)
pairs, all values string-typed (excel_parser.py reads with dtype=str). -/
def Row := List (String × String)

/-- Python dict .get: first binding of the column, none when absent. -/
def rowGet (row : Row) (c : String) : Option String :=
  (List.find? (fun p => p.1 == c) row).map (fun p => p.2)

/-- Whitespace test for the strip below (Python str.strip default set,
restricted to the ASCII whitespace that occurs in price lists). -/
def isWS (c : Char) : Bool := c == ' ' || c == '\t' || c == '\n' || c == '\r'

/-- Python str.strip: drop leading and trailing whitespace. -/
def stripStr (s : String) : String :=
  String.mk (((s.data.dropWhile isWS).reverse.dropWhile isWS).reverse)

/-- Embeds `_get` (email_ingest.py lines 50-55): probe the candidate
columns in order; the first whose raw value is neither absent, "" nor
"nan" wins and is returned stripped; otherwise none. -/
def getFirst (row : Row) : List String → Option String
  | [] => none
  | c :: rest =>
    match rowGet row c with
    | some v => if v == "" || v == "nan" then getFirst row rest else some (stripStr v)
    | none => getFirst row rest

/-- Python truthiness of an optional string: None and "" are falsy. -/
def pyTruthy : Option String → Bool
  | none => false
  | some s => !(s == "")

/-- Python `x or d` for an optional string x: None and "" give d. -/
def pyOrD : Option String → String → String
  | none, d => d
  | some s, d => if s == "" then d else s

/-- Field-mapping configuration (the JSON object stored in
ParsingTemplate.mapping): per target field, the candidate source columns;
an absent key falls back to the source's literal default list. -/
structure FieldMapping where
  username : Option (List String) := none
  mcc : Option (List String) := none
  mnc : Option (List String) := none
  mccmnc : Option (List String) := none
  price : Option (List String) := none
  currency : Option (List String) := none
  effective : Option (List String) := none
deriving DecidableEq

/-- Probe for the username field (mapping.get("username",["username"])). -/
def probedUsername (row : Row) (m : FieldMapping) : Option String :=
  getFirst row (m.username.getD ["username"])

/-- Probe for the mcc field. -/
def probedMcc (row : Row) (m : FieldMapping) : Option String :=
  getFirst row (m.mcc.getD ["mcc"])

/-- Probe for the mnc field. -/
def probedMnc (row : Row) (m : FieldMapping) : Option String :=
  getFirst row (m.mnc.getD ["mnc"])

/-- Probe for a directly supplied mccmnc column. -/
def probedMccmncDirect (row : Row) (m : FieldMapping) : Option String :=
  getFirst row (m.mccmnc.getD ["mccmnc"])

/-- Probe for the price field. -/
def probedPrice (row : Row) (m : FieldMapping) : Option String :=
  getFirst row (m.price.getD ["price"])

/-- Probe for the currency field. -/
def probedCurrency (row : Row) (m : FieldMapping) : Option String :=
  getFirst row (m.currency.getD ["currency"])

/-- Probe for the effective field (defaults probe effective, valid_from). -/
def probedEffective (row : Row) (m : FieldMapping) : Option String :=
  getFirst row (m.effective.getD ["effective", "valid_from"])

/-- Embeds the mccmnc resolution of `map_row` (email_ingest.py lines
60-63): the direct column if truthy, else mcc ++ mnc when both truthy,
else the (falsy) direct probe. -/
def resolvedMccmnc (row : Row) (m : FieldMapping) : Option String :=
  if !(pyTruthy (probedMccmncDirect row m))
      && pyTruthy (probedMcc row m) && pyTruthy (probedMnc row m) then
    some ((probedMcc row m).getD "" ++ (probedMnc row m).getD "")
  else probedMccmncDirect row m

/-- All characters are decimal digits. -/
def allDigits (cs : List Char) : Bool := cs.all Char.isDigit

/-- Numeric value of a digit list. -/
def digitsVal (cs : List Char) : Nat := cs.foldl (fun a c => a * 10 + (c.toNat - 48)) 0

/-- Unsigned decimal literal: integer digits with an optional point and
fraction digits; at least one digit overall. -/
def parseUnsignedDecimal (cs : List Char) : Option Rat :=
  let ip := cs.takeWhile (fun c => !(c == '.'))
  match cs.dropWhile (fun c => !(c == '.')) with
  | [] => if allDigits ip && !(ip.isEmpty) then some ((digitsVal ip : Nat) : Rat) else none
  | _ :: frac =>
    if allDigits ip && allDigits frac && !(ip.isEmpty && frac.isEmpty) then
      some ((digitsVal ip : Rat) + (digitsVal frac : Rat) / ((10 : Rat) ^ frac.length))
    else none

/-- Models Python float() on the decimal-literal grammar the price lists
use: optional sign, digits, optional point and fraction digits. -/
def parseDecimal (s : String) : Option Rat :=
  match s.data with
  | [] => none
  | c :: rest =>
    if c == '+' then parseUnsignedDecimal rest
    else if c == '-' then (parseUnsignedDecimal rest).map (fun q => -q)
    else parseUnsignedDecimal (c :: rest)

/-- Python pr.replace(",", ".") for the single-character pattern. -/
def commaToDot (s : String) : String :=
  String.mk (s.data.map (fun c => if c == ',' then '.' else c))

/-- Normalized price record (the dict `map_row` returns; `map_row` always
sets username, mccmnc, price and currency on a returned record). -/
structure PriceRecord where
  username : String
  mccmnc : String
  price : Rat
  currency : String
  effective : Option String
deriving DecidableEq

/-- Embeds `map_row` (email_ingest.py lines 57-71): probe each field;
discard the row (none) when the price probe is falsy or fails to parse
after comma normalisation, or when username or mccmnc ends up falsy. -/
def map_row (row : Row) (m : FieldMapping) : Option PriceRecord :=
  match probedPrice row m with
  | none => none
  | some pr =>
    if pr == "" then none
    else
      match parseDecimal (commaToDot pr) with
      | none => none
      | some p =>
        match probedUsername row m, resolvedMccmnc row m with
        | some u, some mmv =>
          if u == "" || mmv == "" then none
          else some ⟨u, mmv, p,
            upperStr (pyOrD (probedCurrency row m) "EUR"), probedEffective row m⟩
        | some _, none => none
        | none, _ => none

/-- Embeds the per-attachment row loop of `parse_with_template`
(email_ingest.py lines 80-83): map each row, keep the records. -/
def mapBatch (rows : List Row) (m : FieldMapping) : List PriceRecord :=
  rows.filterMap (fun r => map_row r m)

/-- C6: the mapper discards a row (produces no record, raises no error:
map_row is a total function into Option) exactly when the probed price is
absent or falsy, or fails to parse as a decimal after comma replacement,
or the resulting username or mccmnc field is falsy; and a discarded row
leaves the rest of the batch unaffected. -/
theorem C6_map_row_discard (row : Row) (m : FieldMapping) :
    (map_row row m = none ↔
      (pyTruthy (probedPrice row m) = false
        ∨ (∃ s, probedPrice row m = some s ∧ s ≠ "" ∧ parseDecimal (commaToDot s) = none)
        ∨ pyTruthy (probedUsername row m) = false
        ∨ pyTruthy (resolvedMccmnc row m) = false))
    ∧ (map_row row m = none → ∀ pre post : List Row,
        mapBatch (pre ++ row :: post) m = mapBatch (pre ++ post) m) := by
  constructor
  · cases hp : probedPrice row m with
    | none => simp [map_row, hp, pyTruthy]
    | some pr =>
      by_cases hpe : pr = ""
      · subst hpe
        simp [map_row, hp, pyTruthy]
      · have hb : (pr == "") = false := by simp [hpe]
        cases hd : parseDecimal (commaToDot pr) with
        | none =>
          simp only [map_row, hp, hb, Bool.false_eq_true, if_false, hd]
          exact ⟨fun _ => Or.inr (Or.inl ⟨pr, rfl, hpe, hd⟩), fun _ => trivial⟩
        | some p =>
          cases hu : probedUsername row m with
          | none =>
            simp [map_row, hp, hb, hd, hu, pyTruthy, hpe]
          | some u =>
            cases hm : resolvedMccmnc row m with
            | none =>
              simp [map_row, hp, hb, hd, hu, hm, pyTruthy, hpe]
            | some mv =>
              by_cases hue : u = ""
              · subst hue
                simp [map_row, hp, hb, hd, hu, hm, pyTruthy, hpe]
              · by_cases hme : mv = ""
                · subst hme
                  simp [map_row, hp, hb, hd, hu, hm, pyTruthy, hpe, hue]
                · simp [map_row, hp, hb, hd, hu, hm, pyTruthy, hpe, hue, hme]
  · intro h pre post
    unfold mapBatch
    rw [List.filterMap_append, List.filterMap_append]
    congr 1
    simp [h]

/-- Concrete instance of C6: a row whose price fails to parse is dropped
and the surrounding batch is mapped as if the row were not there. -/
theorem C6_map_row_discard_witness :
    mapBatch [[("username", "client1"), ("mcc", "202"), ("mnc", "01"), ("price", "12,5")],
        [("username", "client2"), ("mccmnc", "20202"), ("price", "abc")]] {} =
      mapBatch [[("username", "client1"), ("mcc", "202"), ("mnc", "01"), ("price", "12,5")]] {} :=
  (C6_map_row_discard [("username", "client2"), ("mccmnc", "20202"), ("price", "abc")] {}).2
    (by decide) [[("username", "client1"), ("mcc", "202"), ("mnc", "01"), ("price", "12,5")]] []

/-- C7: mccmnc is the direct probe when truthy; otherwise the
concatenation mcc ++ mnc when both probes are truthy; otherwise it stays
falsy, and the record (when one is produced) carries exactly this value. -/
theorem C7_mccmnc_resolution (row : Row) (m : FieldMapping) :
    (pyTruthy (probedMccmncDirect row m) = true →
      resolvedMccmnc row m = probedMccmncDirect row m)
    ∧ (∀ a b, pyTruthy (probedMccmncDirect row m) = false →
        probedMcc row m = some a → a ≠ "" → probedMnc row m = some b → b ≠ "" →
        resolvedMccmnc row m = some (a ++ b))
    ∧ (pyTruthy (probedMccmncDirect row m) = false →
        (pyTruthy (probedMcc row m) = false ∨ pyTruthy (probedMnc row m) = false) →
        pyTruthy (resolvedMccmnc row m) = false)
    ∧ (∀ rec, map_row row m = some rec → resolvedMccmnc row m = some rec.mccmnc) := by
  refine ⟨?_, ?_, ?_, ?_⟩
  · intro h
    unfold resolvedMccmnc
    simp [h]
  · intro a b h ha hae hb hbe
    unfold resolvedMccmnc
    rw [h, ha, hb]
    simp [pyTruthy, hae, hbe]
  · intro h hor
    unfold resolvedMccmnc
    rcases hor with h1 | h1 <;> simp [h, h1]
  · intro rec hrec
    unfold map_row at hrec
    split at hrec
    · exact absurd hrec (by simp)
    · split at hrec
      · exact absurd hrec (by simp)
      · split at hrec
        · exact absurd hrec (by simp)
        · split at hrec
          · split at hrec
            · exact absurd hrec (by simp)
            · rename_i heq _
              cases hrec
              exact heq
          · exact absurd hrec (by simp)
          · exact absurd hrec (by simp)

/-- Concrete instance of C7: mcc "202" and mnc "01" with no direct mccmnc
column derive mccmnc "20201", and the produced record carries it. -/
theorem C7_mccmnc_resolution_witness :
    resolvedMccmnc [("username", "client1"), ("mcc", "202"), ("mnc", "01"), ("price", "12,5")] {}
      = some ("202" ++ "01") :=
  (C7_mccmnc_resolution
      [("username", "client1"), ("mcc", "202"), ("mnc", "01"), ("price", "12,5")] {}).2.1
    "202" "01" (by decide) (by decide) (by decide) (by decide) (by decide)

/-- Python s[:n] on a string, by code point. -/
def strTake (n : Nat) (s : String) : String := String.mk (s.data.take n)

/-- Python s[n:] on a string, by code point. -/
def strDrop (n : Nat) (s : String) : String := String.mk (s.data.drop n)

/-- Python `s or d` for a plain string: "" gives d. -/
def pyOrStr (s d : String) : String := if s == "" then d else s

/-- Supplier row (models.py lines 6-11); per_delivered is nullable until
ensure_schema backfills it. -/
structure Supplier where
  id : Nat
  organization_name : String
  per_delivered : Option Bool
deriving DecidableEq

/-- Country row (models.py lines 22-26). -/
structure Country where
  id : Nat
  name : String
  mcc : String
deriving DecidableEq

/-- Network row (models.py lines 28-34). -/
structure Network where
  id : Nat
  country_id : Nat
  name : String
  mnc : String
  mccmnc : String
deriving DecidableEq

/-- OfferCurrent row (models.py lines 36-54). The route/charge metadata
columns the upsert engine never sets stay at their NULL default. -/
structure OfferCurrent where
  id : Nat
  supplier_id : Nat
  connection_id : Nat
  network_id : Nat
  price : Rat
  currency : Option String
  effective_date : Nat
  route_type : Option String := none
  known_hops : Option String := none
  sender_id_supported : Option String := none
  registration_required : Option String := none
  eta_days : Option Nat := none
  charge_model : Option String := none
  is_exclusive : Option String := none
  notes : Option String := none
  updated_by : Option String := none
  updated_at : Nat
deriving DecidableEq

/-- OfferHistory row (models.py lines 56-65). The schema has no currency
column: only previous_id, the triple, price and the two timestamps. -/
structure OfferHistory where
  id : Nat
  previous_id : Nat
  supplier_id : Nat
  connection_id : Nat
  network_id : Nat
  price : Rat
  effective_date : Nat
  updated_at : Nat
deriving DecidableEq

/-- ParsingTemplate row (models.py lines 67-76) with its JSON conditions
and mapping columns already parsed. -/
structure ParsingTemplate where
  id : Nat
  supplier_id : Nat
  connection_id : Nat
  name : String
  enabled : Bool
  conditions : Conditions
  mapping : FieldMapping
deriving DecidableEq

/-- The relational store as the worker sees it: the tables it reads and
writes, plus a nextId counter standing for autoincrement primary keys. -/
structure Store where
  suppliers : List Supplier
  countries : List Country
  networks : List Network
  offers : List OfferCurrent
  history : List OfferHistory
  templates : List ParsingTemplate
  nextId : Nat
deriving DecidableEq

/-- Embeds the reference-resolver half of `upsert_offer` (cli.py lines
15-22): look up the Network by mccmnc; when absent, look up or create the
Country for the 3-digit MCC prefix, then create the Network under it. -/
def resolveNetwork (db : Store) (mm : String) : Network × Store :=
  match List.find? (fun n => n.mccmnc == mm) db.networks with
  | some n => (n, db)
  | none =>
    match List.find? (fun c => c.mcc == strTake 3 mm) db.countries with
    | some ctry =>
      let net : Network :=
        { id := db.nextId, country_id := ctry.id,
          name := "Network " ++ mm, mnc := strDrop 3 mm, mccmnc := mm }
      (net, { db with networks := db.networks ++ [net], nextId := db.nextId + 1 })
    | none =>
      let ctry : Country :=
        { id := db.nextId, name := "MCC " ++ strTake 3 mm, mcc := strTake 3 mm }
      let net : Network :=
        { id := db.nextId + 1, country_id := ctry.id,
          name := "Network " ++ mm, mnc := strDrop 3 mm, mccmnc := mm }
      (net, { db with countries := db.countries ++ [ctry],
                      networks := db.networks ++ [net], nextId := db.nextId + 2 })

/-- Predicate of the CurrentOffer lookup (cli.py lines 24-28): the first
offer for the (supplier, connection, network) triple. -/
def tripleMatch (sid cid nid : Nat) (o : OfferCurrent) : Bool :=
  o.supplier_id == sid && o.connection_id == cid && o.network_id == nid

/-- Embeds `upsert_offer` (cli.py lines 14-49): resolve the network, look
up the current offer for the triple, then return identical (no write),
updated (one history row appended, offer mutated in place) or inserted
(one offer appended); `now` is the engine's current timestamp. -/
def upsert_offer (db0 : Store) (row : PriceRecord) (supplier_id connection_id : Nat)
    (now : Nat) : String × Nat × Store :=
  match resolveNetwork db0 row.mccmnc with
  | (net, db) =>
    match List.find? (tripleMatch supplier_id connection_id net.id) db.offers with
    | some cur =>
      if cur.price = row.price ∧ pyOrD cur.currency "EUR" = upperStr (pyOrStr row.currency "EUR") then
        ("identical", cur.id, db)
      else
        ("updated", cur.id,
          { db with
              history := db.history ++
                [{ id := db.nextId, previous_id := cur.id, supplier_id := cur.supplier_id,
                   connection_id := cur.connection_id, network_id := cur.network_id,
                   price := cur.price, effective_date := cur.effective_date,
                   updated_at := now }],
              offers := db.offers.map (fun o =>
                if o.id == cur.id then
                  { cur with price := row.price,
                             currency := some (upperStr (pyOrStr row.currency "EUR")),
                             effective_date := now, updated_at := now }
                else o),
              nextId := db.nextId + 1 })
    | none =>
      ("inserted", db.nextId,
        { db with
            offers := db.offers ++
              [{ id := db.nextId, supplier_id := supplier_id,
                 connection_id := connection_id, network_id := net.id,
                 price := row.price,
                 currency := some (upperStr (pyOrStr row.currency "EUR")),
                 effective_date := now, updated_at := now }],
            nextId := db.nextId + 1 })

lemma resolveNetwork_offers (db : Store) (mm : String) :
    (resolveNetwork db mm).2.offers = db.offers := by
  unfold resolveNetwork
  cases List.find? (fun n => n.mccmnc == mm) db.networks with
  | some n => rfl
  | none =>
    cases List.find? (fun c => c.mcc == strTake 3 mm) db.countries with
    | some c => rfl
    | none => rfl

lemma resolveNetwork_history (db : Store) (mm : String) :
    (resolveNetwork db mm).2.history = db.history := by
  unfold resolveNetwork
  cases List.find? (fun n => n.mccmnc == mm) db.networks with
  | some n => rfl
  | none =>
    cases List.find? (fun c => c.mcc == strTake 3 mm) db.countries with
    | some c => rfl
    | none => rfl

lemma resolveNetwork_found (db : Store) (mm : String) (net : Network)
    (h : List.find? (fun n => n.mccmnc == mm) db.networks = some net) :
    resolveNetwork db mm = (net, db) := by
  unfold resolveNetwork
  rw [h]

/-- C2 (amended): a CurrentOffer for the triple whose price equals the
incoming price and whose stored currency (defaulted to "EUR" when null or
empty) equals the upper-cased incoming currency yields outcome
"identical" and the store is returned entirely unchanged. -/
theorem C2_identical_path (db : Store) (row : PriceRecord) (sid cid now : Nat)
    (net : Network) (cur : OfferCurrent)
    (hnet : List.find? (fun n => n.mccmnc == row.mccmnc) db.networks = some net)
    (hcur : List.find? (tripleMatch sid cid net.id) db.offers = some cur)
    (hpe : cur.price = row.price)
    (hce : pyOrD cur.currency "EUR" = upperStr (pyOrStr row.currency "EUR")) :
    upsert_offer db row sid cid now = ("identical", cur.id, db) := by
  simp only [upsert_offer, resolveNetwork_found db row.mccmnc net hnet, hcur]
  rw [if_pos ⟨hpe, hce⟩]

/-- Offer row used by the C2 counterexample: stored currency is the
lower-case string "eur". -/
def curLowerEur : OfferCurrent :=
  { id := 3, supplier_id := 1, connection_id := 2, network_id := 2,
    price := 5, currency := some "eur", effective_date := 40, updated_at := 40 }

/-- Store used by the C2 counterexample. -/
def dbLowerEur : Store :=
  { suppliers := [], countries := [⟨1, "MCC 202", "202"⟩],
    networks := [⟨2, 1, "Network 20201", "01", "20201"⟩],
    offers := [curLowerEur], history := [], templates := [], nextId := 4 }

/-- Incoming record of the C2 counterexample: currency "eur". -/
def recLowerEur : PriceRecord :=
  { username := "u", mccmnc := "20201", price := 5, currency := "eur", effective := none }

/-- C2 fails as stated: the stored currency "eur" and the incoming
currency "eur" are case-insensitively equal and the prices are equal, yet
the engine returns "updated" and writes (the store changes), because it
compares the stored currency verbatim against the upper-cased incoming
one. -/
theorem C2_counterexample :
    curLowerEur.price = recLowerEur.price
    ∧ lowerStr (curLowerEur.currency.getD "") = lowerStr recLowerEur.currency
    ∧ (upsert_offer dbLowerEur recLowerEur 1 2 50).1 = "updated"
    ∧ (upsert_offer dbLowerEur recLowerEur 1 2 50).2.2 ≠ dbLowerEur :=
  ⟨rfl, rfl, rfl, by decide⟩

/-- Concrete instance of C2 (amended): price 5 and stored currency "EUR"
against incoming 5 / "eur" (upper-cased to "EUR") is identical, with the
store returned unchanged. -/
theorem C2_identical_path_witness :
    upsert_offer
        { suppliers := [], countries := [⟨1, "MCC 202", "202"⟩],
          networks := [⟨2, 1, "Network 20201", "01", "20201"⟩],
          offers := [{ id := 3, supplier_id := 1, connection_id := 2, network_id := 2,
                       price := 5, currency := some "EUR", effective_date := 40,
                       updated_at := 40 }],
          history := [], templates := [], nextId := 4 }
        { username := "u", mccmnc := "20201", price := 5, currency := "eur",
          effective := none } 1 2 50 =
      ("identical", 3,
        { suppliers := [], countries := [⟨1, "MCC 202", "202"⟩],
          networks := [⟨2, 1, "Network 20201", "01", "20201"⟩],
          offers := [{ id := 3, supplier_id := 1, connection_id := 2, network_id := 2,
                       price := 5, currency := some "EUR", effective_date := 40,
                       updated_at := 40 }],
          history := [], templates := [], nextId := 4 }) :=
  C2_identical_path _ _ 1 2 50 ⟨2, 1, "Network 20201", "01", "20201"⟩
    { id := 3, supplier_id := 1, connection_id := 2, network_id := 2,
      price := 5, currency := some "EUR", effective_date := 40, updated_at := 40 }
    (by decide) (by decide) (by decide) (by decide)

/-- C1 (amended): when a CurrentOffer exists for the triple and the
engine's comparison finds the price or the (normalised) currency changed,
exactly one OfferHistory row is appended, capturing the prior price and
prior effective date and referencing the superseded offer's id — the
OfferHistory schema has no currency column, so the prior currency is not
captured — then the CurrentOffer is mutated in place to the new values
and the outcome is "updated". -/
theorem C1_updated_path (db : Store) (row : PriceRecord) (sid cid now : Nat)
    (net : Network) (cur : OfferCurrent)
    (hnet : List.find? (fun n => n.mccmnc == row.mccmnc) db.networks = some net)
    (hcur : List.find? (tripleMatch sid cid net.id) db.offers = some cur)
    (hdiff : ¬(cur.price = row.price ∧
        pyOrD cur.currency "EUR" = upperStr (pyOrStr row.currency "EUR"))) :
    ∃ db1 h,
      upsert_offer db row sid cid now = ("updated", cur.id, db1)
      ∧ db1.history = db.history ++ [h]
      ∧ h.previous_id = cur.id ∧ h.price = cur.price
      ∧ h.effective_date = cur.effective_date
      ∧ db1.offers = db.offers.map (fun o =>
          if o.id == cur.id then
            { cur with price := row.price,
                       currency := some (upperStr (pyOrStr row.currency "EUR")),
                       effective_date := now, updated_at := now }
          else o)
      ∧ db1.countries = db.countries ∧ db1.networks = db.networks
      ∧ db1.suppliers = db.suppliers ∧ db1.templates = db.templates := by
  simp only [upsert_offer, resolveNetwork_found db row.mccmnc net hnet, hcur]
  rw [if_neg hdiff]
  exact ⟨_, _, rfl, rfl, rfl, rfl, rfl, rfl, rfl, rfl, rfl, rfl⟩

/-- Store before the update of the C1 counterexample, prior currency
"USD". -/
def dbPriorUSD : Store :=
  { suppliers := [], countries := [⟨1, "MCC 202", "202"⟩],
    networks := [⟨2, 1, "Network 20201", "01", "20201"⟩],
    offers := [{ id := 3, supplier_id := 1, connection_id := 2, network_id := 2,
                 price := 5, currency := some "USD", effective_date := 40,
                 updated_at := 40 }],
    history := [], templates := [], nextId := 4 }

/-- Same store with prior currency "GBP" instead. -/
def dbPriorGBP : Store :=
  { suppliers := [], countries := [⟨1, "MCC 202", "202"⟩],
    networks := [⟨2, 1, "Network 20201", "01", "20201"⟩],
    offers := [{ id := 3, supplier_id := 1, connection_id := 2, network_id := 2,
                 price := 5, currency := some "GBP", effective_date := 40,
                 updated_at := 40 }],
    history := [], templates := [], nextId := 4 }

/-- Incoming record of the C1 counterexample. -/
def recNewEUR : PriceRecord :=
  { username := "u", mccmnc := "20201", price := 5, currency := "EUR", effective := none }

/-- C1 fails as stated: the history row does not capture the prior
currency. Two stores that differ only in the superseded offer's currency
("USD" vs "GBP") produce, on the same updated-outcome upsert, entirely
equal results — outcome, history row included — so the prior currency is
recorded nowhere. -/
theorem C1_counterexample :
    upsert_offer dbPriorUSD recNewEUR 1 2 50 = upsert_offer dbPriorGBP recNewEUR 1 2 50
    ∧ dbPriorUSD ≠ dbPriorGBP
    ∧ (upsert_offer dbPriorUSD recNewEUR 1 2 50).1 = "updated" :=
  ⟨rfl, by decide, rfl⟩

/-- Concrete instance of C1 (amended): updating the "USD" offer to "EUR"
appends one history row holding the prior price 5, prior effective date
40 and previous_id 3, and mutates the offer in place. -/
theorem C1_updated_path_witness :
    ∃ db1 h,
      upsert_offer dbPriorUSD recNewEUR 1 2 50 = ("updated", 3, db1)
      ∧ db1.history = dbPriorUSD.history ++ [h]
      ∧ h.previous_id = 3 ∧ h.price = 5 ∧ h.effective_date = 40
      ∧ db1.offers = dbPriorUSD.offers.map (fun o =>
          if o.id == (3 : Nat) then
            { id := 3, supplier_id := 1, connection_id := 2, network_id := 2,
              price := 5, currency := some (upperStr (pyOrStr recNewEUR.currency "EUR")),
              effective_date := 50, updated_at := 50 }
          else o)
      ∧ db1.countries = dbPriorUSD.countries ∧ db1.networks = dbPriorUSD.networks
      ∧ db1.suppliers = dbPriorUSD.suppliers ∧ db1.templates = dbPriorUSD.templates :=
  C1_updated_path dbPriorUSD recNewEUR 1 2 50 ⟨2, 1, "Network 20201", "01", "20201"⟩
    { id := 3, supplier_id := 1, connection_id := 2, network_id := 2,
      price := 5, currency := some "USD", effective_date := 40, updated_at := 40 }
    (by decide) (by decide) (by decide)

/-- C3: when no CurrentOffer exists for the triple (under the resolved
network id), exactly one new CurrentOffer is appended carrying the
incoming values and the engine timestamp, no OfferHistory row is
created, and the outcome is "inserted". -/
theorem C3_inserted_path (db : Store) (row : PriceRecord) (sid cid now : Nat)
    (hcur : List.find? (tripleMatch sid cid (resolveNetwork db row.mccmnc).1.id)
        db.offers = none) :
    ∃ db1 newOffer,
      upsert_offer db row sid cid now = ("inserted", newOffer.id, db1)
      ∧ db1.offers = db.offers ++ [newOffer]
      ∧ db1.history = db.history
      ∧ newOffer.supplier_id = sid ∧ newOffer.connection_id = cid
      ∧ newOffer.network_id = (resolveNetwork db row.mccmnc).1.id
      ∧ newOffer.price = row.price
      ∧ newOffer.currency = some (upperStr (pyOrStr row.currency "EUR"))
      ∧ newOffer.effective_date = now := by
  have hoff := resolveNetwork_offers db row.mccmnc
  have hhist := resolveNetwork_history db row.mccmnc
  unfold upsert_offer
  cases hres : resolveNetwork db row.mccmnc with
  | mk net db2 =>
    rw [hres] at hoff hhist hcur
    dsimp only at hoff hhist hcur ⊢
    rw [← hoff] at hcur
    rw [hcur, hoff, hhist]
    exact ⟨_,
      { id := db2.nextId, supplier_id := sid, connection_id := cid, network_id := net.id,
        price := row.price, currency := some (upperStr (pyOrStr row.currency "EUR")),
        effective_date := now, updated_at := now },
      rfl, rfl, rfl, rfl, rfl, rfl, rfl, rfl, rfl⟩

/-- Concrete instance of C3: inserting into a store with no offer for the
triple (here the network itself is created on the fly) appends exactly
one offer and no history row. -/
theorem C3_inserted_path_witness :
    ∃ db1 newOffer,
      upsert_offer
          { suppliers := [], countries := [], networks := [], offers := [],
            history := [], templates := [], nextId := 7 }
          { username := "client1", mccmnc := "20201", price := 25/2, currency := "EUR",
            effective := none } 1 2 50 = ("inserted", newOffer.id, db1)
      ∧ db1.offers = [] ++ [newOffer]
      ∧ db1.history = []
      ∧ newOffer.supplier_id = 1 ∧ newOffer.connection_id = 2
      ∧ newOffer.network_id =
          (resolveNetwork
            { suppliers := [], countries := [], networks := [], offers := [],
              history := [], templates := [], nextId := 7 } "20201").1.id
      ∧ newOffer.price = 25/2
      ∧ newOffer.currency = some (upperStr (pyOrStr "EUR" "EUR"))
      ∧ newOffer.effective_date = 50 :=
  C3_inserted_path
    { suppliers := [], countries := [], networks := [], offers := [],
      history := [], templates := [], nextId := 7 }
    { username := "client1", mccmnc := "20201", price := 25/2, currency := "EUR",
      effective := none } 1 2 50 (by decide)

/-- C10: the upsert engine ignores the record's effective field — the
result is invariant under changing it — and on the inserted and updated
outcomes the written CurrentOffer's effective date is the engine's
current timestamp `now`, never the mapper's extracted value. -/
theorem C10_effective_ignored (db : Store) (row : PriceRecord) (sid cid now : Nat)
    (e : Option String) :
    upsert_offer db { row with effective := e } sid cid now =
        upsert_offer db row sid cid now
    ∧ (∀ st i db1, upsert_offer db row sid cid now = (st, i, db1) → st = "inserted" →
        ∃ o, db1.offers.getLast? = some o ∧ o.effective_date = now)
    ∧ (∀ st i db1, upsert_offer db row sid cid now = (st, i, db1) → st = "updated" →
        ∀ o ∈ db1.offers, o.id = i → o.effective_date = now) := by
  refine ⟨rfl, ?_, ?_⟩
  · intro st i db1 hup hst
    unfold upsert_offer at hup
    cases hres : resolveNetwork db row.mccmnc with
    | mk net db2 =>
      rw [hres] at hup
      dsimp only at hup
      cases hcur : List.find? (tripleMatch sid cid net.id) db2.offers with
      | some cur =>
        rw [hcur] at hup
        dsimp only at hup
        by_cases hc : cur.price = row.price ∧
            pyOrD cur.currency "EUR" = upperStr (pyOrStr row.currency "EUR")
        · rw [if_pos hc] at hup
          cases hup
          simp at hst
        · rw [if_neg hc] at hup
          cases hup
          simp at hst
      | none =>
        rw [hcur] at hup
        dsimp only at hup
        cases hup
        exact ⟨_, List.getLast?_append_cons db2.offers _ [], rfl⟩
  · intro st i db1 hup hst
    unfold upsert_offer at hup
    cases hres : resolveNetwork db row.mccmnc with
    | mk net db2 =>
      rw [hres] at hup
      dsimp only at hup
      cases hcur : List.find? (tripleMatch sid cid net.id) db2.offers with
      | some cur =>
        rw [hcur] at hup
        dsimp only at hup
        by_cases hc : cur.price = row.price ∧
            pyOrD cur.currency "EUR" = upperStr (pyOrStr row.currency "EUR")
        · rw [if_pos hc] at hup
          cases hup
          simp at hst
        · rw [if_neg hc] at hup
          cases hup
          intro o ho hoid
          rcases List.mem_map.1 ho with ⟨o0, _, rfl⟩
          by_cases hid : (o0.id == cur.id) = true
          · rw [if_pos hid]
          · rw [if_neg hid] at hoid ⊢
            exact absurd (by simpa using hoid) (by simpa using hid)
      | none =>
        rw [hcur] at hup
        dsimp only at hup
        cases hup
        simp at hst

/-- Concrete instance of C10: the same store and record with two
different effective values upsert identically, and the inserted offer's
effective date is the engine timestamp 50, not the record's value. -/
theorem C10_effective_ignored_witness :
    upsert_offer
        { suppliers := [], countries := [], networks := [], offers := [],
          history := [], templates := [], nextId := 7 }
        { username := "client1", mccmnc := "20201", price := 25/2, currency := "EUR",
          effective := some "2030-01-01" } 1 2 50 =
      upsert_offer
        { suppliers := [], countries := [], networks := [], offers := [],
          history := [], templates := [], nextId := 7 }
        { username := "client1", mccmnc := "20201", price := 25/2, currency := "EUR",
          effective := none } 1 2 50
    ∧ ∃ o,
        (upsert_offer
          { suppliers := [], countries := [], networks := [], offers := [],
            history := [], templates := [], nextId := 7 }
          { username := "client1", mccmnc := "20201", price := 25/2, currency := "EUR",
            effective := none } 1 2 50).2.2.offers.getLast? = some o
        ∧ o.effective_date = 50 :=
  ⟨(C10_effective_ignored
      { suppliers := [], countries := [], networks := [], offers := [],
        history := [], templates := [], nextId := 7 }
      { username := "client1", mccmnc := "20201", price := 25/2, currency := "EUR",
        effective := none } 1 2 50 (some "2030-01-01")).1,
    (C10_effective_ignored
      { suppliers := [], countries := [], networks := [], offers := [],
        history := [], templates := [], nextId := 7 }
      { username := "client1", mccmnc := "20201", price := 25/2, currency := "EUR",
        effective := none } 1 2 50 (some "2030-01-01")).2.1 _ _ _ rfl rfl⟩

/-- Attachment as the orchestrator sees it: a filename and the outcome of
decoding its bytes into rows. The byte decode itself is the external
pandas call (excel_parser.py read_pricelist_bytes); a raised exception
there is the .error case, which parse_with_template catches and skips. -/
structure Attachment where
  filename : String
  content : Except Unit (List Row)

/-- A fetched message: header fields plus extracted attachments. -/
structure FullMessage where
  headers : Message
  attachments : List Attachment

/-- Embeds normalize_columns (excel_parser.py lines 12-14) applied to one
row: column names are stripped and lower-cased. -/
def normalizeRow (r : Row) : Row :=
  r.map (fun p => (lowerStr (stripStr p.1), p.2))

/-- Embeds `parse_with_template` (email_ingest.py lines 73-86): per
attachment, decode, normalise columns, map each row keeping the records;
an attachment whose decode raised is skipped and processing continues. -/
def parse_with_template (atts : List Attachment) (m : FieldMapping) : List PriceRecord :=
  atts.foldr
    (fun a acc =>
      match a.content with
      | Except.error _ => acc
      | Except.ok rs => mapBatch (rs.map normalizeRow) m ++ acc) []

/-- Embeds `ensure_schema` (cli.py lines 8-12): create_all and the ALTER
touch no rows; the UPDATE backfills per_delivered = FALSE on every
supplier row where it is NULL. -/
def ensure_schema (db : Store) : Store :=
  { db with
      suppliers := db.suppliers.map (fun s =>
        if s.per_delivered = none then { s with per_delivered := some false } else s) }

/-- Cycle counters of ingest_once (cli.py line 63). -/
structure Counters where
  total : Nat
  inserted : Nat
  updated : Nat
  identical : Nat
  errors : Nat
deriving DecidableEq

/-- All counters start at zero. -/
def Counters.zero : Counters := ⟨0, 0, 0, 0, 0⟩

/-- One row of the orchestrator's inner loop (cli.py lines 70-80): total
increments; dry-run skips the write path entirely; otherwise the upsert
step runs and exactly one of inserted/updated/identical increments by the
returned status (any unrecognised status falls into the identical arm,
like the source's else), while an exception from the step increments
errors and leaves the store as the step left it visible (here: unchanged,
the step being atomic). `step` abstracts the upsert call so that
store-level failures can surface as .error. -/
def ingestRow (dryrun : Bool)
    (step : Store → PriceRecord → Nat → Nat → Nat → Except Unit (String × Nat × Store))
    (sid cid now : Nat) (st : Counters × Store) (r : PriceRecord) : Counters × Store :=
  let c1 := { st.1 with total := st.1.total + 1 }
  if dryrun then (c1, st.2)
  else
    match step st.2 r sid cid now with
    | Except.ok (status, _, db1) =>
      if status = "inserted" then ({ c1 with inserted := c1.inserted + 1 }, db1)
      else if status = "updated" then ({ c1 with updated := c1.updated + 1 }, db1)
      else ({ c1 with identical := c1.identical + 1 }, db1)
    | Except.error _ => ({ c1 with errors := c1.errors + 1 }, st.2)

/-- Per-template step of the message loop (cli.py lines 66-80): skip the
template unless the match condition holds, else parse the attachments and
fold the rows through ingestRow. -/
def ingestTemplate (dryrun : Bool)
    (step : Store → PriceRecord → Nat → Nat → Nat → Except Unit (String × Nat × Store))
    (now : Nat) (msg : FullMessage) (st : Counters × Store) (t : ParsingTemplate) :
    Counters × Store :=
  if match_template msg.headers (msg.attachments.map (fun a => a.filename)) t.conditions then
    (parse_with_template msg.attachments t.mapping).foldl
      (ingestRow dryrun step t.supplier_id t.connection_id now) st
  else st

/-- Per-message step (cli.py lines 64-66): all enabled templates are
tried against the message in order. -/
def ingestMessage (dryrun : Bool)
    (step : Store → PriceRecord → Nat → Nat → Nat → Except Unit (String × Nat × Store))
    (now : Nat) (tpls : List ParsingTemplate) (st : Counters × Store) (msg : FullMessage) :
    Counters × Store :=
  tpls.foldl (fun s t => ingestTemplate dryrun step now msg s t) st

/-- Embeds `ingest_once` (cli.py lines 51-84) from ensure_schema onwards:
the fetched messages are given (the IMAP fetch is external I/O), the
enabled templates are read from the store, and the message/template/row
loops accumulate counters and store. -/
def ingest_once (dryrun : Bool)
    (step : Store → PriceRecord → Nat → Nat → Nat → Except Unit (String × Nat × Store))
    (now : Nat) (db0 : Store) (msgs : List FullMessage) : Counters × Store :=
  let db := ensure_schema db0
  let tpls := db.templates.filter (fun t => t.enabled)
  msgs.foldl (fun s msg => ingestMessage dryrun step now tpls s msg) (Counters.zero, db)

/-- The orchestrator's actual upsert step: the embedded upsert_offer,
which is total. -/
def upsertStep (db : Store) (r : PriceRecord) (sid cid now : Nat) :
    Except Unit (String × Nat × Store) :=
  Except.ok (upsert_offer db r sid cid now)

lemma foldl_preserves {α β : Type} (P : β → Prop) (f : β → α → β)
    (hf : ∀ b a, P b → P (f b a)) : ∀ (l : List α) (b : β), P b → P (l.foldl f b) := by
  intro l
  induction l with
  | nil => exact fun b hb => hb
  | cons a l ih => exact fun b hb => ih (f b a) (hf b a hb)

lemma ingestRow_dry_store (step : Store → PriceRecord → Nat → Nat → Nat →
      Except Unit (String × Nat × Store))
    (sid cid now : Nat) (st : Counters × Store) (r : PriceRecord) :
    (ingestRow true step sid cid now st r).2 = st.2 := rfl

lemma ingest_once_dry_store (step : Store → PriceRecord → Nat → Nat → Nat →
      Except Unit (String × Nat × Store))
    (now : Nat) (db : Store) (msgs : List FullMessage) :
    (ingest_once true step now db msgs).2 = ensure_schema db := by
  have h := foldl_preserves (fun s : Counters × Store => s.2 = ensure_schema db)
    (fun s msg => ingestMessage true step now
      ((ensure_schema db).templates.filter (fun t => t.enabled)) s msg)
    (fun b msg hb => by
      unfold ingestMessage
      refine foldl_preserves (fun s : Counters × Store => s.2 = ensure_schema db)
        (fun s t => ingestTemplate true step now msg s t)
        (fun b2 t hb2 => by
          unfold ingestTemplate
          dsimp only
          split
          · exact foldl_preserves (fun s : Counters × Store => s.2 = ensure_schema db)
              (ingestRow true step t.supplier_id t.connection_id now)
              (fun b3 r hb3 => hb3) _ b2 hb2
          · exact hb2) _ b hb)
    msgs (Counters.zero, ensure_schema db) rfl
  exact h

/-- C4 (amended): a dry-run cycle issues no writes through the row loop —
offers, history, networks, countries and templates are exactly as before,
whatever the upsert step would do and whatever the messages are — but the
schema-ensure step that every cycle runs first backfills
per_delivered = FALSE on supplier rows where it is NULL, so the suppliers
table ends in its backfilled image, not necessarily its prior state. -/
theorem C4_dryrun_frame (step : Store → PriceRecord → Nat → Nat → Nat →
      Except Unit (String × Nat × Store))
    (now : Nat) (db : Store) (msgs : List FullMessage) :
    (ingest_once true step now db msgs).2.offers = db.offers
    ∧ (ingest_once true step now db msgs).2.history = db.history
    ∧ (ingest_once true step now db msgs).2.networks = db.networks
    ∧ (ingest_once true step now db msgs).2.countries = db.countries
    ∧ (ingest_once true step now db msgs).2.templates = db.templates
    ∧ (ingest_once true step now db msgs).2.suppliers = db.suppliers.map (fun s =>
        if s.per_delivered = none then { s with per_delivered := some false } else s) := by
  rw [ingest_once_dry_store step now db msgs]
  exact ⟨rfl, rfl, rfl, rfl, rfl, rfl⟩

/-- Store of the C4 counterexample: one supplier with per_delivered NULL. -/
def dbNullSupplier : Store :=
  { suppliers := [⟨1, "Acme", none⟩], countries := [], networks := [], offers := [],
    history := [], templates := [], nextId := 2 }

/-- C4 fails as stated: a dry-run cycle over a store holding a supplier
whose per_delivered is NULL does write — ensure_schema, which runs before
the dry-run check, backfills the flag to FALSE — so the store state after
the cycle differs from the state before. -/
theorem C4_counterexample :
    (ingest_once true upsertStep 50 dbNullSupplier []).2 ≠ dbNullSupplier
    ∧ (ingest_once true upsertStep 50 dbNullSupplier []).2.suppliers =
        [⟨1, "Acme", some false⟩] :=
  ⟨by decide, rfl⟩

/-- The counter balance every non-dry-run cycle maintains. -/
def counterInv (c : Counters) : Prop :=
  c.total = c.inserted + c.updated + c.identical + c.errors

lemma ingestRow_inv (step : Store → PriceRecord → Nat → Nat → Nat →
      Except Unit (String × Nat × Store))
    (sid cid now : Nat) (st : Counters × Store) (r : PriceRecord)
    (h : counterInv st.1) : counterInv (ingestRow false step sid cid now st r).1 := by
  unfold counterInv at h ⊢
  unfold ingestRow
  simp only [Bool.false_eq_true, if_false]
  cases hs : step st.2 r sid cid now with
  | error e => dsimp only; omega
  | ok res =>
    obtain ⟨status, i, db1⟩ := res
    dsimp only
    by_cases h1 : status = "inserted"
    · rw [if_pos h1]; dsimp only; omega
    · rw [if_neg h1]
      by_cases h2 : status = "updated"
      · rw [if_pos h2]; dsimp only; omega
      · rw [if_neg h2]; dsimp only; omega

/-- C9: at the end of every non-dry-run cycle the aggregate counters
satisfy total = inserted + updated + identical + errors — each candidate
row increments total and exactly one of the other four. -/
theorem C9_counters_balance (step : Store → PriceRecord → Nat → Nat → Nat →
      Except Unit (String × Nat × Store))
    (now : Nat) (db : Store) (msgs : List FullMessage) :
    ((ingest_once false step now db msgs).1).total =
      ((ingest_once false step now db msgs).1).inserted +
      ((ingest_once false step now db msgs).1).updated +
      ((ingest_once false step now db msgs).1).identical +
      ((ingest_once false step now db msgs).1).errors := by
  have h := foldl_preserves (fun s : Counters × Store => counterInv s.1)
    (fun s msg => ingestMessage false step now
      ((ensure_schema db).templates.filter (fun t => t.enabled)) s msg)
    (fun b msg hb => by
      unfold ingestMessage
      exact foldl_preserves (fun s : Counters × Store => counterInv s.1)
        (fun s t => ingestTemplate false step now msg s t)
        (fun b2 t hb2 => by
          unfold ingestTemplate
          dsimp only
          split
          · exact foldl_preserves (fun s : Counters × Store => counterInv s.1)
              (ingestRow false step t.supplier_id t.connection_id now)
              (fun b3 r hb3 => ingestRow_inv step t.supplier_id t.connection_id now b3 r hb3)
              _ b2 hb2
          · exact hb2) _ b hb)
    msgs (Counters.zero, ensure_schema db) (by simp [counterInv, Counters.zero])
  exact h

/-- Wait schedule of tenacity wait_exponential(multiplier=1, max=8) as
applied to fetch_messages (email_ingest.py line 36): after the k-th
failed attempt the wait is min(multiplier * 2^(k-1), max) seconds. -/
def waitExponential (multiplier maxWait attempt : Nat) : Nat :=
  min (multiplier * 2 ^ (attempt - 1)) maxWait

/-- Bounded retry of tenacity stop_after_attempt: run the given attempt;
while fuel remains, a failure moves on to the next attempt; the last
attempt's outcome is returned as is (tenacity surfaces the last attempt's
failure when attempts exhaust). `f n` is the outcome of the n-th attempt
of the wrapped call. -/
def retryAttempts {E A : Type} (f : Nat → Except E A) : Nat → Nat → Except E A
  | attempt, 0 => f attempt
  | attempt, fuel + 1 =>
    match f attempt with
    | Except.ok a => Except.ok a
    | Except.error _ => retryAttempts f (attempt + 1) fuel

/-- Embeds the retry decorator on fetch_messages (email_ingest.py lines
36-37): stop_after_attempt(3) — first attempt plus at most two retries.
The IMAP fetch itself is external I/O; `f n` gives its n-th outcome. -/
def fetch_messages_retried {E A : Type} (f : Nat → Except E A) : Except E A :=
  retryAttempts f 1 2

/-- C8: the fetch is attempted at most 3 times (the result depends only
on the first three attempts), two failures followed by a success return
that success, three failures surface the final error, and the backoff
schedule starts at 1 second, doubles, and is capped at 8 seconds. -/
theorem C8_retry_policy {E A : Type} (f : Nat → Except E A) :
    (∀ e1 e2 a, f 1 = Except.error e1 → f 2 = Except.error e2 → f 3 = Except.ok a →
      fetch_messages_retried f = Except.ok a)
    ∧ (∀ e1 e2 e3, f 1 = Except.error e1 → f 2 = Except.error e2 → f 3 = Except.error e3 →
      fetch_messages_retried f = Except.error e3)
    ∧ (∀ g : Nat → Except E A, g 1 = f 1 → g 2 = f 2 → g 3 = f 3 →
      fetch_messages_retried g = fetch_messages_retried f)
    ∧ waitExponential 1 8 1 = 1
    ∧ waitExponential 1 8 2 = 2
    ∧ (∀ k, waitExponential 1 8 k ≤ 8) := by
  refine ⟨?_, ?_, ?_, rfl, rfl, fun k => Nat.min_le_right _ _⟩
  · intro e1 e2 a h1 h2 h3
    simp [fetch_messages_retried, retryAttempts, h1, h2, h3]
  · intro e1 e2 e3 h1 h2 h3
    simp [fetch_messages_retried, retryAttempts, h1, h2, h3]
  · intro g hg1 hg2 hg3
    simp only [fetch_messages_retried, retryAttempts, hg1, hg2, hg3]

/-- Concrete instance of C8: a fetch failing on attempts 1 and 2 and
succeeding on attempt 3 returns the success; one failing on all three
attempts surfaces the error of attempt 3. -/
theorem C8_retry_policy_witness :
    fetch_messages_retried (fun n => if 3 ≤ n then Except.ok 42 else Except.error n) =
      (Except.ok 42 : Except Nat Nat)
    ∧ fetch_messages_retried (fun n => (Except.error n : Except Nat Nat)) =
      Except.error 3 :=
  ⟨(C8_retry_policy (fun n => if 3 ≤ n then Except.ok 42 else Except.error n)).1 1 2 42
      rfl rfl rfl,
    (C8_retry_policy (fun n => (Except.error n : Except Nat Nat))).2.1 1 2 3 rfl rfl rfl⟩

end SMSProc
